import Mathlib

/-!
Verification of the core of `Cliente-Socket-Python-GUI`: the tabular
ingestion engine (`src/file_management/file_handler.py`) and the TCP
transport client (`src/network/connections.py`), shallowly embedded in
Lean 4.  Python strings become `String`, pandas DataFrames become an
explicit `DataFrame` structure, Python exceptions become an inductive
error type returned through `Except`, and the outcomes of external
library calls (socket operations, `pd.read_excel`, `pd.read_csv`,
`pd.read_fwf`, `csv.Sniffer`) are supplied as explicit parameters, since
those calls are outside the repository.
-/

namespace ClienteSocketPython

/- ---------------------------------------------------------------------
Python string primitives used by the source.
--------------------------------------------------------------------- -/

/-- Characters treated as whitespace by Python's `str.strip`, `str.split`
and the regex class `\s` (ASCII range). -/
def pyIsSpace (c : Char) : Bool :=
  c = ' ' || c = '\t' || c = '\n' || c = '\r' || c = '\x0b' || c = '\x0c'

/-- Python `str.strip()` with no arguments: drop leading and trailing
whitespace. -/
def pyStrip (s : String) : String :=
  ⟨((s.data.dropWhile pyIsSpace).reverse.dropWhile pyIsSpace).reverse⟩

/-- Python `str.split()` with no arguments: split on runs of whitespace,
discarding empty fields. -/
def pySplit (s : String) : List String :=
  ((s.data.splitOnP pyIsSpace).filter (· ≠ [])).map (⟨·⟩)

/-- Collapse every maximal run of whitespace to one space (`go false`):
the flag records whether the previous character was whitespace. -/
def collapseGo : Bool → List Char → List Char
  | _, [] => []
  | inRun, c :: cs =>
    if pyIsSpace c then
      if inRun then collapseGo true cs else ' ' :: collapseGo true cs
    else c :: collapseGo false cs

/-- Python `re.sub(r'\s+', ' ', s)`: collapse every maximal run of
whitespace characters to a single space. -/
def collapseWs (s : String) : String :=
  ⟨collapseGo false s.data⟩

/-- Python `s.split(d)` for a one-character separator `d`: split at
every occurrence, keeping empty fields (`"".split(d) == ['']`). -/
def charSplit (d : Char) : List Char → List (List Char)
  | [] => [[]]
  | c :: cs =>
    match charSplit d cs with
    | [] => [[]]
    | seg :: rest => if c = d then [] :: seg :: rest else (c :: seg) :: rest

/-- `charSplit` lifted back to strings. -/
def strSplit (d : Char) (s : String) : List String :=
  (charSplit d s.data).map (⟨·⟩)

/-- Index (into the character list) of the last occurrence of `c` in
`cs`, if any. -/
def lastIdxOf (c : Char) (cs : List Char) : Option Nat :=
  (cs.enum.filter (fun p => p.2 = c)).foldl (fun _ p => some p.1) none

/-- Final path component, as in `pathlib.PurePosixPath(p).name` for the
simple paths used here: the text after the last `/`. -/
def pathName (p : String) : String :=
  (strSplit '/' p).getLastD ""

/-- `pathlib.Path(p).suffix`: the extension of the final component.
pathlib computes `i = name.rfind('.')` and returns `name[i:]` when
`0 < i < len(name) - 1`, else the empty string. -/
def pathSuffix (p : String) : String :=
  let name := pathName p
  match lastIdxOf '.' name.data with
  | none => ""
  | some i => if 0 < i ∧ i < name.data.length - 1 then ⟨name.data.drop i⟩ else ""

/- ---------------------------------------------------------------------
The exception hierarchy of `src/core/exceptions.py`.  Every class is a
bare subclass of `ClienteError` carrying only a message, so the
embedding is one inductive with one constructor per class, and the
class of an exception object is its constructor tag (`ExcKind`).
--------------------------------------------------------------------- -/

/-- The dynamic class of a raised exception: this is the only thing a
Python caller can branch on without reading the message text. -/
inductive ExcKind where
  | conexion
  | archivo
  | configuracion
  | cliente
  deriving DecidableEq, Repr

/-- The exception classes declared in `src/core/exceptions.py`; each
carries just its message string. -/
inductive ClienteExc where
  | conexionError (msg : String)
  | archivoError (msg : String)
  | configuracionError (msg : String)
  | clienteError (msg : String)
  deriving DecidableEq, Repr

/-- `type(e)` of an exception value. -/
def ClienteExc.kind : ClienteExc → ExcKind
  | .conexionError _ => .conexion
  | .archivoError _ => .archivo
  | .configuracionError _ => .configuracion
  | .clienteError _ => .cliente

/-- Kind of the error carried by an `Except` result, when it is one. -/
def errKind? {α : Type} : Except ClienteExc α → Option ExcKind
  | .ok _ => none
  | .error e => some e.kind

/-- `true` when the result is either success or an error of kind `k`:
"every failure of this operation has kind `k`". -/
def errKindIs {α : Type} (r : Except ClienteExc α) (k : ExcKind) : Bool :=
  match r with
  | .ok _ => true
  | .error e => e.kind = k

/- ---------------------------------------------------------------------
Transport client: `ClienteSocket` in `src/network/connections.py`.
The physical socket is outside the program, so `conectar`/`enviar_datos`
take the outcome of the underlying system call as a parameter and
translate it into the exception the source raises for it.
--------------------------------------------------------------------- -/

/-- Possible outcomes of `socket.connect` as discriminated by the
`except` clauses of `ClienteSocket.conectar`. -/
inductive ConnectOutcome where
  | ok
  | sockTimeout
  | gaierror
  | refused
  | failure (msg : String)
  deriving DecidableEq, Repr

/-- Possible outcomes of `socket.sendall` as discriminated by the
`except` clauses of `ClienteSocket.enviar_datos`. -/
inductive SendOutcome where
  | ok
  | sockTimeout
  | brokenPipe
  | failure (msg : String)
  deriving DecidableEq, Repr

/-- State of a `ClienteSocket` instance: the connection parameters plus
the two pieces of mutable state (`_conectado`, and whether `_socket` is
a live object rather than `None`). -/
structure ClienteSocket where
  host : String
  puerto : Nat
  timeoutSecs : Nat
  conectado : Bool
  hasSocket : Bool
  deriving DecidableEq, Repr

namespace ClienteSocket

/-- `ClienteSocket.desconectar`: close and drop the socket, never raise
(errors while closing are swallowed), always end not-connected. -/
def desconectar (c : ClienteSocket) : ClienteSocket :=
  if c.hasSocket then { c with hasSocket := false, conectado := false } else c

/-- `ClienteSocket.conectar`: implicit disconnect when already
connected, then create a socket, set its timeout and connect; each
`except` clause re-raises a `ConexionError` whose message names the
cause.  `out` is the outcome of the `socket.connect` system call. -/
def conectar (c : ClienteSocket) (out : ConnectOutcome) :
    ClienteSocket × Except ClienteExc Unit :=
  let c := if c.conectado then c.desconectar else c
  let c := { c with hasSocket := true }
  let h := c.host
  let p := toString c.puerto
  match out with
  | .ok => ({ c with conectado := true }, .ok ())
  | .sockTimeout => (c, .error (.conexionError s!"Timeout al conectar con {h}:{p}"))
  | .gaierror => (c, .error (.conexionError s!"No se pudo resolver el host: {h}"))
  | .refused => (c, .error (.conexionError s!"Conexión rechazada por {h}:{p}"))
  | .failure m => (c, .error (.conexionError s!"Error inesperado al conectar: {m}"))

/-- `ClienteSocket.enviar_datos`: raise when not connected, otherwise
send and translate each `except` clause into its `ConexionError`.
`out` is the outcome of the `socket.sendall` system call. -/
def enviarDatos (c : ClienteSocket) (out : SendOutcome) : Except ClienteExc Unit :=
  if ¬c.conectado ∨ ¬c.hasSocket then
    .error (.conexionError "No hay conexión establecida")
  else
    match out with
    | .ok => .ok ()
    | .sockTimeout => .error (.conexionError "Timeout al enviar datos")
    | .brokenPipe => .error (.conexionError "La conexión se cerró inesperadamente")
    | .failure m => .error (.conexionError s!"Error al enviar datos: {m}")

end ClienteSocket

/-- A fresh client as built by `ClienteSocket.__init__("localhost", 9000)`. -/
def testClient : ClienteSocket :=
  { host := "localhost", puerto := 9000, timeoutSecs := 30
    conectado := false, hasSocket := false }

/- ---------------------------------------------------------------------
Delimiter detection: `ManejadorArchivos._detectar_delimitador`.
The quantities the source computes with Python division (`consistencia`,
`promedio_columnas`) are embedded as exact fractions of naturals,
compared by cross-multiplication; every comparison the source performs
on them (`>= 2`, `>= 0.8`, tuple max) is reproduced at these fractions.
--------------------------------------------------------------------- -/

/-- A non-negative fraction `num / den` (`den` positive at every use
site); the embedding of the Python float quotients in the detector. -/
structure Frac where
  num : Nat
  den : Nat
  deriving DecidableEq, Repr

/-- `a < b` as rationals, by cross-multiplication. -/
def Frac.lt (a b : Frac) : Bool := a.num * b.den < b.num * a.den

/-- `a ≤ b` as rationals, by cross-multiplication. -/
def Frac.le (a b : Frac) : Bool := a.num * b.den ≤ b.num * a.den

/-- `a = b` as rationals, by cross-multiplication. -/
def Frac.eqv (a b : Frac) : Bool := a.num * b.den = b.num * a.den

/-- Python tuple comparison `x > y` on pairs, as used by
`max(..., key=lambda x: (x['consistencia'], x['promedio_columnas']))`. -/
def tupleGt (x y : Frac × Frac) : Bool :=
  Frac.lt y.1 x.1 || (Frac.eqv x.1 y.1 && Frac.lt y.2 x.2)

/-- Python `max(xs, key=key)`: the first element with maximal key
(`max` scans left to right and replaces the best only on a strictly
greater key). -/
def pyMaxBy {α : Type} (key : α → Frac × Frac) : List α → Option α
  | [] => none
  | x :: xs => some (xs.foldl (fun acc y => if tupleGt (key y) (key acc) then y else acc) x)

/-- The sampled lines of `_detectar_delimitador`:
`[linea.strip() for linea in muestra.split('\n')[:10] if linea.strip()]`. -/
def lineasMuestra (muestra : String) : List String :=
  (((strSplit '\n' muestra).take 10).map pyStrip).filter (· ≠ "")

/-- Column count per sampled line for one candidate delimiter (the
source's one-character delimiter strings are embedded as `Char`).  For
the space candidate the source first collapses whitespace runs
(`re.sub(r'\s+', ' ', linea.strip())`) and skips the line when the
result is empty; for the other candidates it splits directly, skipping
empty lines. -/
def columnasPorLinea (delim : Char) (ls : List String) : List Nat :=
  if delim = ' ' then
    ls.filterMap (fun l =>
      let lc := collapseWs (pyStrip l)
      if lc = "" then none else some ((strSplit ' ' lc).length))
  else
    ls.filterMap (fun l =>
      if l = "" then none else some ((strSplit delim l).length))

/-- One entry of `mejores_resultados`: a candidate delimiter with its
consistency ratio and mean column count. -/
structure Resultado where
  delimitador : Char
  consistencia : Frac
  promedio : Frac
  columnas : List Nat
  deriving DecidableEq, Repr

/-- The candidate list the manual scoring pass builds: for each
delimiter in `[',', '\t', ';', ' ']`, the column counts of the sampled
lines, `consistencia = len(counts) / len(set(counts))`,
`promedio = sum(counts) / len(counts)`, kept when `promedio >= 2`. -/
def mejoresResultados (ls : List String) : List Resultado :=
  [',', '\t', ';', ' '].filterMap (fun d =>
    let cpl := columnasPorLinea d ls
    if cpl = [] then none
    else
      let consistencia : Frac :=
        if cpl.dedup = [] then ⟨0, 1⟩ else ⟨cpl.length, cpl.dedup.length⟩
      let promedio : Frac := ⟨cpl.sum, cpl.length⟩
      if Frac.le ⟨2, 1⟩ promedio then some ⟨d, consistencia, promedio, cpl⟩ else none)

/-- The manual-scoring phase of `_detectar_delimitador` (the branch
taken when `csv.Sniffer` raises): pick the first maximum by
`(consistencia, promedio)`, accept it when `consistencia >= 0.8`,
otherwise — or when no candidate survived, or no sampled line exists —
return comma. -/
def detectarManual (muestra : String) : Char :=
  let ls := lineasMuestra muestra
  if ls = [] then ','
  else
    match pyMaxBy (fun r => (r.consistencia, r.promedio)) (mejoresResultados ls) with
    | none => ','
    | some mejor => if Frac.le ⟨4, 5⟩ mejor.consistencia then mejor.delimitador else ','

/-- Largest fraction of the sampled lines that agree on one single
column count: what the spec's "at least 80% of sampled lines agree on a
single column count" measures over a count list. -/
def maxAgreement (counts : List Nat) : Frac :=
  ⟨(counts.map (fun c => counts.count c)).foldr max 0, counts.length⟩

/- ---------------------------------------------------------------------
Data model: pandas DataFrames and cell values.
--------------------------------------------------------------------- -/

/-- A cell value: a string, a finite rational number `n / d` (with `d`
a positive power of ten coming from the decimal point and exponent), a
non-finite float `±inf`, or NaN/null. -/
inductive Value where
  | str (s : String)
  | num (n : Int) (d : Nat)
  | inf (neg : Bool)
  | null
  deriving DecidableEq, Repr

/-- A pandas DataFrame: named, ordered columns and ordered rows. -/
structure DataFrame where
  columns : List String
  rows : List (List Value)
  deriving DecidableEq, Repr

/-- `df.empty`: true when either axis has length zero. -/
def DataFrame.isEmpty (df : DataFrame) : Bool :=
  df.rows.isEmpty || df.columns.isEmpty

/-- Rectangularity: every row has exactly one cell per column.  Every
DataFrame pandas builds satisfies this; abstract reader outcomes are
constrained with it where a theorem needs it. -/
def DataFrame.rect (df : DataFrame) : Bool :=
  df.rows.all (fun r => r.length = df.columns.length)

/-- Outcome of an external pandas reader call (`pd.read_excel`,
`pd.read_csv`, `pd.read_fwf`): a table, or one of the exception classes
`cargar_archivo` discriminates (`EmptyDataError`, `ParserError`, any
other exception). -/
inductive ReadOutcome where
  | table (df : DataFrame)
  | emptyData (msg : String)
  | parserError (msg : String)
  | failure (msg : String)
  deriving Repr

/-- Digit-list value, `none` when empty or containing a non-digit. -/
def digitsVal : List Char → Option Nat
  | [] => none
  | cs =>
    if cs.all Char.isDigit then
      some (cs.foldl (fun a c => a * 10 + (c.toNat - 48)) 0)
    else none

/-- Digit-list value where the empty list counts as 0 (used on either
side of a decimal point). -/
def digitsVal0 (cs : List Char) : Nat :=
  cs.foldl (fun a c => a * 10 + (c.toNat - 48)) 0

/-- Strip one leading sign: `(negative?, rest)`. -/
def stripSign : List Char → Bool × List Char
  | '+' :: r => (false, r)
  | '-' :: r => (true, r)
  | r => (false, r)

/-- Exponent of a scientific spelling (`e5`, `e+5`, `e-5`): an optional
sign followed by at least one digit. -/
def parseExp (cs : List Char) : Option Int :=
  let sr := stripSign cs
  match digitsVal sr.2 with
  | some v => some (if sr.1 then -(v : Int) else (v : Int))
  | none => none

/-- The finite value `± m / 10^k * 10^e` as a `Value.num` whose
denominator is a power of ten. -/
def mkNumVal (neg : Bool) (m : Nat) (k : Nat) (e : Int) : Value :=
  let sign : Int := if neg then -1 else 1
  match e with
  | .ofNat e0 => .num (sign * ((m * 10 ^ e0 : Nat) : Int)) (10 ^ k)
  | .negSucc e0 => .num (sign * (m : Int)) (10 ^ (k + e0 + 1))

/-- A decimal mantissa (`digits`, `digits.digits`, `.digits`,
`digits.`) holding at least one digit, scaled by the exponent `e`. -/
def parseMantissa (neg : Bool) (mant : List Char) (e : Int) : Option Value :=
  match charSplit '.' mant with
  | [ip] =>
    match digitsVal ip with
    | some v => some (mkNumVal neg v 0 e)
    | none => none
  | [ip, fp] =>
    if ip.all Char.isDigit ∧ fp.all Char.isDigit ∧ (ip ≠ [] ∨ fp ≠ []) then
      some (mkNumVal neg (digitsVal0 ip * 10 ^ fp.length + digitsVal0 fp) fp.length e)
    else none
  | _ => none

/-- Numeric string parsing as `pd.to_numeric` accepts it: surrounding
whitespace stripped, one optional sign, then either the
case-insensitive non-finite spellings `inf`/`infinity` (→ `±inf`) and
`nan` (→ NaN), or a decimal mantissa with optional fractional part and
optional `e`/`E` exponent (`123`, `12.5`, `.5`, `5.`, `1e5`,
`3.25e-2`).  Digit-grouping underscores, hex and other spellings are
not accepted by pandas' numeric parser and yield `none`. -/
def parseNum (s : String) : Option Value :=
  let cs := (pyStrip s).data
  let sr := stripSign cs
  let neg := sr.1
  let body := sr.2.map Char.toLower
  if body = "inf".data ∨ body = "infinity".data then some (.inf neg)
  else if body = "nan".data then some .null
  else
    match charSplit 'e' body with
    | [mant] => parseMantissa neg mant 0
    | [mant, expPart] =>
      match parseExp expPart with
      | some e => parseMantissa neg mant e
      | none => none
    | _ => none

/-- `pd.to_numeric(x, errors='coerce')` on one cell: numbers pass
through, a string that parses becomes numeric (possibly `±inf` or NaN),
and a string that fails to parse is coerced to NaN. -/
def toNumericCoerce : Value → Value
  | .str s => (parseNum s).getD .null
  | .num n d => .num n d
  | .inf neg => .inf neg
  | .null => .null

/-- `df[name] = pd.to_numeric(df[name], errors='coerce')` for a column
label that selects a single column: coerce every cell of every column
called `name` (no-op when no column has that name). -/
def coerceCol (name : String) (df : DataFrame) : DataFrame :=
  if df.columns.contains name then
    let flags := df.columns.map (· == name)
    { df with
      rows := df.rows.map (fun r =>
        (flags.zip r).map (fun p => if p.1 then toNumericCoerce p.2 else p.2)) }
  else df

/-- One `if name in df.columns: df[name] = pd.to_numeric(df[name],
errors='coerce')` statement.  When `name` labels exactly one column the
assignment coerces that column and nothing raises; when `name` is a
duplicated label, `df[name]` selects a DataFrame and `pd.to_numeric`
raises `TypeError` before any assignment happens. -/
def coerceColStrict (name : String) (df : DataFrame) : Except String DataFrame :=
  if df.columns.contains name then
    if df.columns.count name > 1 then
      .error "arg must be a list, tuple, 1-d array, or Series"
    else .ok (coerceCol name df)
  else .ok df

/-- The type-conversion step of `_procesar_archivo_espacios`: the two
coercion statements run inside one `try` whose `except Exception: pass`
swallows any failure.  So if the `anio` statement raises (duplicated
label), neither column is coerced; if it succeeds and the `perdida_ha`
statement raises, the `anio` assignment is kept and `perdida_ha` stays
as strings. -/
def coerceTipos (df : DataFrame) : DataFrame :=
  match coerceColStrict "anio" df with
  | .error _ => df
  | .ok df1 =>
    match coerceColStrict "perdida_ha" df1 with
    | .error _ => df1
    | .ok df2 => df2

/-- `pd.DataFrame(data, columns=cols)` on a list of uniform-width string
rows: succeeds when every row has exactly one entry per column name,
otherwise raises `ValueError` (the callers here always pass rows of
width 4). -/
def mkDataFrame (data : List (List String)) (cols : List String) :
    Except String DataFrame :=
  if data.all (fun r => r.length = cols.length) then
    .ok ⟨cols, data.map (fun r => r.map Value.str)⟩
  else
    let nc := cols.length
    let nd := ((data.head?).map List.length).getD 0
    .error s!"{nc} columns passed, passed data had {nd} columns"

/- ---------------------------------------------------------------------
Run-of-spaces reconstruction: `_procesar_archivo_espacios`.
--------------------------------------------------------------------- -/

/-- Python `sep.join(xs)` for a one-character separator. -/
def pyJoin (sep : Char) : List String → String
  | [] => ""
  | [x] => x
  | x :: y :: xs => ⟨x.data ++ sep :: (pyJoin sep (y :: xs)).data⟩

/-- Row assembly for one data line of the naive pass, from its
whitespace-split tokens: exactly 4 tokens pass through; more than 4
fold the leading tokens into one space-joined head field ahead of the
last three; exactly 3 are padded with empty fields to width 4
(`partes[:4]` after the `while` loop); fewer are dropped. -/
def naiveRow (partes : List String) : Option (List String) :=
  if partes.length ≥ 4 then
    if partes.length = 4 then some partes
    else
      let n := partes.length
      some (pyJoin ' ' (partes.take (n - 3)) :: partes.drop (n - 3))
  else if partes.length ≥ 3 then
    some ((partes ++ List.replicate (4 - partes.length) "").take 4)
  else none

/-- The `for i, linea in enumerate(lineas)` loop of
`_procesar_archivo_espacios`: strip each line, skip blank ones, make
the tokens of line index 0 the header, and run `naiveRow` on every
other line.  State `enc`/`datos` mirrors `encabezados` /
`datos_procesados`. -/
def procesarLineas (i : Nat) (enc : Option (List String))
    (datos : List (List String)) :
    List String → Option (List String) × List (List String)
  | [] => (enc, datos)
  | l :: rest =>
    let s := pyStrip l
    if s = "" then procesarLineas (i + 1) enc datos rest
    else
      let partes := pySplit s
      if i = 0 then procesarLineas (i + 1) (some partes) datos rest
      else
        match naiveRow partes with
        | some r => procesarLineas (i + 1) enc (datos ++ [r]) rest
        | none => procesarLineas (i + 1) enc datos rest

/-- `_procesar_archivo_espacios`, with the file's lines and the outcome
of the final `pd.read_csv(ruta, sep=r'\s+', engine='python')` call as
inputs.  The whole body runs inside one `try`, so every exception
(including the `ArchivoError` for an empty file, a `ValueError` from
`pd.DataFrame`, and anything `read_csv` raises) surfaces as
`ArchivoError("Error al procesar archivo con espacios: ...")`. -/
def procesarArchivoEspacios (lineas : List String) (wsCsv : ReadOutcome) :
    Except ClienteExc DataFrame :=
  let inner : Except String DataFrame :=
    if lineas = [] then .error "El archivo está vacío"
    else
      let fallback : Except String DataFrame :=
        match wsCsv with
        | .table df => .ok df
        | .emptyData m => .error m
        | .parserError m => .error m
        | .failure m => .error m
      match procesarLineas 0 none [] lineas with
      | (some enc, datos) =>
        -- `if encabezados and datos_procesados:` — both truthy
        if enc ≠ [] ∧ datos ≠ [] then
          match mkDataFrame datos enc with
          | .ok df => .ok (coerceTipos df)
          | .error m => .error m
        else fallback
      | (none, _) => fallback
  match inner with
  | .ok df => .ok df
  | .error m => .error (.archivoError s!"Error al procesar archivo con espacios: {m}")

/- ---------------------------------------------------------------------
Fixed-width pass: `_procesar_columnas_fijas`.  No call site exists in
the repository; it is embedded to compare its behavior with what the
loader actually does.
--------------------------------------------------------------------- -/

/-- Result of `_procesar_columnas_fijas`: a table, one of its own
`ArchivoError` raises, or an exception propagating untouched out of
`pd.read_fwf` (the function has no `try`). -/
inductive FijasResult where
  | ok (df : DataFrame)
  | archivoErr (msg : String)
  | pandasErr (msg : String)
  deriving Repr

/-- Maximal runs of two or more literal spaces, as `(start, end)`
offsets: `re.finditer(r'  +', linea)`.  `cur = some s` means a space
run began at offset `s`. -/
def spaceRunsGo (i : Nat) (cur : Option Nat) : List Char → List (Nat × Nat)
  | [] =>
    match cur with
    | some s => if i - s ≥ 2 then [(s, i)] else []
    | none => []
  | c :: cs =>
    if c = ' ' then
      match cur with
      | some s => spaceRunsGo (i + 1) (some s) cs
      | none => spaceRunsGo (i + 1) (some i) cs
    else
      match cur with
      | some s =>
        if i - s ≥ 2 then (s, i) :: spaceRunsGo (i + 1) none cs
        else spaceRunsGo (i + 1) none cs
      | none => spaceRunsGo (i + 1) none cs

/-- All `(start, end)` spans of 2-or-more-space runs in a string. -/
def spaceRuns (s : String) : List (Nat × Nat) :=
  spaceRunsGo 0 none s.data

/-- Column widths from separator spans: the span from the previous
separator's end to the next separator's start, then the remainder of
the line. -/
def anchosDesde (inicio : Nat) (total : Nat) : List (Nat × Nat) → List Nat
  | [] => [total - inicio]
  | (s, e) :: rest => (s - inicio) :: anchosDesde e total rest

/-- Python `s.rstrip('\n\r')`. -/
def rstripNl (s : String) : String :=
  ⟨(s.data.reverse.dropWhile (fun c => c = '\n' || c = '\r')).reverse⟩

/-- `_procesar_columnas_fijas(archivo_path, lineas)`: needs at least two
lines, finds the multi-space runs of the first data line, needs at
least two of them, and hands the derived widths to `pd.read_fwf`
(outcome supplied as `fwf`). -/
def procesarColumnasFijas (lineas : List String)
    (fwf : List Nat → ReadOutcome) : FijasResult :=
  if lineas.length < 2 then .archivoErr "Archivo no tiene suficientes datos"
  else
    let lineaDatos := rstripNl (lineas.getD 1 "")
    let runs := spaceRuns lineaDatos
    if runs.length ≥ 2 then
      match fwf (anchosDesde 0 lineaDatos.data.length runs) with
      | .table df => .ok df
      | .emptyData m => .pandasErr m
      | .parserError m => .pandasErr m
      | .failure m => .pandasErr m
    else .archivoErr "No se pudo determinar estructura de columnas"

/- ---------------------------------------------------------------------
The ingestion engine: `ManejadorArchivos`.
--------------------------------------------------------------------- -/

/-- Character-wise lowercasing, as `str.lower()` on the ASCII
extensions used here. -/
def strToLower (s : String) : String :=
  ⟨s.data.map Char.toLower⟩

/-- One file on disk, as the loader observes it: its byte size, the
≤ 2048-character sample `_detectar_delimitador` reads, the
`csv.Sniffer` verdict on that sample (`none` = `csv.Error`), the full
line list `readlines()` yields (line terminators already split off),
and the outcomes of the external pandas readers on this file. -/
structure Archivo where
  size : Nat
  muestra : String
  sniffer : Option Char
  lineas : List String
  excel : ReadOutcome
  csv : Char → ReadOutcome
  wsCsv : ReadOutcome

/-- The file system: which paths exist and what they hold. -/
def FileSys : Type := String → Option Archivo

/-- `ManejadorArchivos._detectar_delimitador`: the `csv.Sniffer` result
when it produced one, otherwise the manual-scoring fallback on the
sample. -/
def detectarDelimitador (f : Archivo) : Char :=
  match f.sniffer with
  | some d => d
  | none => detectarManual f.muestra

/-- `ManejadorArchivos.EXTENSIONES_EXCEL`. -/
def EXTENSIONES_EXCEL : List String := [".xlsx", ".xls"]

/-- `ManejadorArchivos.EXTENSIONES_CSV`. -/
def EXTENSIONES_CSV : List String := [".csv", ".txt"]

/-- `ManejadorArchivos.EXTENSIONES_PERMITIDAS`. -/
def EXTENSIONES_PERMITIDAS : List String := EXTENSIONES_EXCEL ++ EXTENSIONES_CSV

/-- An exception travelling through the `try` of `cargar_archivo`,
before its `except` clauses translate it: an `ArchivoError` raised in
the body, one of the two pandas errors given their own clause, or any
other exception. -/
inductive LoadErr where
  | archivo (msg : String)
  | pdEmpty (msg : String)
  | pdParser (msg : String)
  | failure (msg : String)
  deriving DecidableEq, Repr

/-- Unwrap a reader outcome inside the `try` of `cargar_archivo`. -/
def outcomeExtract : ReadOutcome → Except LoadErr DataFrame
  | .table df => .ok df
  | .emptyData m => .error (.pdEmpty m)
  | .parserError m => .error (.pdParser m)
  | .failure m => .error (.failure m)

/-- An exception out of `_procesar_archivo_espacios` propagating into
the `try` of `cargar_archivo` (always an `ArchivoError`). -/
def espaciosToLoad : Except ClienteExc DataFrame → Except LoadErr DataFrame
  | .ok df => .ok df
  | .error (.archivoError m) => .error (.archivo m)
  | .error (.conexionError m) => .error (.failure m)
  | .error (.configuracionError m) => .error (.failure m)
  | .error (.clienteError m) => .error (.failure m)

/-- The reader-dispatch step of `cargar_archivo`: the Excel reader for
an Excel extension, otherwise delimiter detection followed by the space
reconstructor (winning separator space) or `pd.read_csv` (any other
separator). -/
def leerDatos (f : Archivo) (ext : String) : Except LoadErr DataFrame :=
  if EXTENSIONES_EXCEL.contains ext then outcomeExtract f.excel
  else
    let d := detectarDelimitador f
    if d = ' ' then espaciosToLoad (procesarArchivoEspacios f.lineas f.wsCsv)
    else outcomeExtract (f.csv d)

/-- The body of `cargar_archivo`'s `try`: existence check, extension
check, reader dispatch (`leerDatos`), then the non-emptiness check. -/
def cargarInner (fs : FileSys) (ruta : String) : Except LoadErr DataFrame :=
  match fs ruta with
  | none => .error (.archivo s!"El archivo {ruta} no existe")
  | some f =>
    let ext := strToLower (pathSuffix ruta)
    if EXTENSIONES_PERMITIDAS.contains ext then
      match leerDatos f ext with
      | .error e => .error e
      | .ok datos =>
        if datos.isEmpty then .error (.archivo "El archivo está vacío") else .ok datos
    else
      let ext := pathSuffix ruta
      .error (.archivo s!"Formato de archivo no soportado: {ext}")

/-- The `except` clauses of `cargar_archivo`.  `EmptyDataError` and
`ParserError` get their own messages; everything else — including the
`ArchivoError`s raised in the body, which the bare `except Exception`
also catches — is re-wrapped as
`ArchivoError("Error inesperado al cargar el archivo: ...")`. -/
def cargarResult (fs : FileSys) (ruta : String) : Except ClienteExc DataFrame :=
  match cargarInner fs ruta with
  | .ok df => .ok df
  | .error (.pdEmpty _) => .error (.archivoError "El archivo está vacío o corrupto")
  | .error (.pdParser m) => .error (.archivoError s!"Error al parsear el archivo: {m}")
  | .error (.archivo m) =>
    .error (.archivoError s!"Error inesperado al cargar el archivo: {m}")
  | .error (.failure m) =>
    .error (.archivoError s!"Error inesperado al cargar el archivo: {m}")

/-- The mutable state of a `ManejadorArchivos` instance:
`_archivo_actual` and `_datos`. -/
structure ManejadorArchivos where
  archivoActual : Option String
  datos : Option DataFrame
  deriving DecidableEq, Repr

/-- `ManejadorArchivos.__init__`: no file, no data. -/
def inicial : ManejadorArchivos := ⟨none, none⟩

/-- The `tiene_datos` property: a DataFrame is present and non-empty. -/
def tieneDatos (m : ManejadorArchivos) : Bool :=
  match m.datos with
  | some df => !df.isEmpty
  | none => false

/-- `cargar_archivo` as a state transition: the two attributes are
assigned together after every validation has passed, so a failing call
leaves the instance untouched and a succeeding call replaces both. -/
def cargarArchivo (fs : FileSys) (m : ManejadorArchivos) (ruta : String) :
    ManejadorArchivos × Except ClienteExc DataFrame :=
  match cargarResult fs ruta with
  | .ok df => (⟨some ruta, some df⟩, .ok df)
  | .error e => (m, .error e)

/- ---------------------------------------------------------------------
JSON projection: `obtener_datos_json`, at the level of the JSON
document `df.to_json(orient='records', force_ascii=False)` denotes.
--------------------------------------------------------------------- -/

/-- The metadata record `obtener_informacion_archivo` returns when a
file is loaded. -/
structure InfoArchivo where
  nombre : String
  ruta : String
  extension : String
  tamano : Nat
  filas : Nat
  columnas : Nat
  deriving DecidableEq, Repr

/-- `obtener_informacion_archivo`: the empty dict (here `none`) without
a current file, otherwise name, path, extension, the byte size read
from the file system at call time (parameter `size`), and the data
shape. -/
def obtenerInformacion (m : ManejadorArchivos) (size : Nat) : Option InfoArchivo :=
  match m.archivoActual with
  | none => none
  | some ruta =>
    some
      { nombre := pathName ruta
        ruta := ruta
        extension := pathSuffix ruta
        tamano := size
        filas := if tieneDatos m then ((m.datos.map (·.rows.length)).getD 0) else 0
        columnas := if tieneDatos m then ((m.datos.map (·.columns.length)).getD 0) else 0 }

/-- Handler states reachable through the public operations: a fresh
instance, plus any number of `cargar_archivo` calls (`obtener_datos_json`
and `obtener_informacion_archivo` do not write the state). -/
inductive Reachable : ManejadorArchivos → Prop where
  | init : Reachable inicial
  | load (fs : FileSys) (ruta : String) {m : ManejadorArchivos} :
      Reachable m → Reachable (cargarArchivo fs m ruta).1

/- ---------------------------------------------------------------------
Helper predicates and concrete fixtures used by the theorems.
--------------------------------------------------------------------- -/

/-- Whether an `Except` is a success. -/
def exceptOk {α : Type} : Except ClienteExc α → Bool
  | .ok _ => true
  | .error _ => false

/-- "If this load succeeded, the returned table is non-empty." -/
def okNonEmpty : Except ClienteExc DataFrame → Bool
  | .ok df => !df.isEmpty
  | .error _ => true

/-- The failure condition of `cargar_archivo` as the spec enumerates
it: the path does not exist; or the (lowercased) extension is outside
the supported set; or the dispatched reader fails (a structural parse
error, a failing space reconstruction, or any other exception); or the
parsed table has zero rows. -/
def condContentError (fs : FileSys) (ruta : String) : Bool :=
  match fs ruta with
  | none => true
  | some f =>
    let ext := strToLower (pathSuffix ruta)
    if EXTENSIONES_PERMITIDAS.contains ext then
      match leerDatos f ext with
      | .error _ => true
      | .ok df => df.isEmpty
    else true

/-- A well-formed two-column CSV table. -/
def testDf : DataFrame := ⟨["a", "b"], [[.str "1", .num 2 1]]⟩

/-- A well-formed `.csv` file whose sniffer detects a comma and whose
comma read yields `testDf`. -/
def testArchivo : Archivo :=
  { size := 42
    muestra := "a,b\n1,2\n"
    sniffer := some ','
    lineas := ["a,b", "1,2"]
    excel := .failure "not an excel file"
    csv := fun d => if d = ',' then .table testDf else .failure "wrong delimiter"
    wsCsv := .failure "unused" }

/-- A file system holding exactly one file, `d.csv`. -/
def testFs : FileSys := fun p => if p = "d.csv" then some testArchivo else none

/-- Lines whose naive space pass finds a header but no usable data row
(the single data line has fewer than 3 tokens). -/
def lineasC2 : List String := ["a b", "c d"]

/-- What `pd.read_csv(..., sep=r'\s+', engine='python')` returns on the
file `"a b\nc d\n"`: first line header, second line one row. -/
def dfC2 : DataFrame := ⟨["a", "b"], [[.str "c", .str "d"]]⟩

/-- The spec's run-of-spaces reconstruction example input
(§8: `"name age"` / `"Ana Maria 30"` / `"Luis 41"`). -/
def lineasC3 : List String := ["name age", "Ana Maria 30", "Luis 41"]

/-- A sample on which every line has a different tab column count:
under the claimed 80%-agreement rule no candidate may be accepted. -/
def muestraC4 : String := "a\tb\na\tb\tc\na\tb\tc\td"

/-- Lines whose `anio` cell is not numeric. -/
def lineasC8 : List String := ["pais codigo anio perdida_ha", "Brasil BR xx 100"]

/- ---------------------------------------------------------------------
Claim C1 — transport error taxonomy.
--------------------------------------------------------------------- -/

/-- C1, counterexample: the claim says a handshake timeout, an active
refusal, a resolution failure and a peer-closed pipe each raise a
*distinct* error kind.  In the code every one of them raises the same
class `ConexionError`: a connect timeout, a refusal and a resolution
failure produce errors of one and the same kind, as do a send timeout,
a broken pipe and a send without a connection, so a caller cannot
branch on the kind. -/
theorem C1_counterexample :
    errKind? (ClienteSocket.conectar testClient .sockTimeout).2 = some ExcKind.conexion
  ∧ errKind? (ClienteSocket.conectar testClient .refused).2 = some ExcKind.conexion
  ∧ errKind? (ClienteSocket.conectar testClient .gaierror).2 = some ExcKind.conexion
  ∧ errKind? (ClienteSocket.conectar testClient (.failure "otro")).2 = some ExcKind.conexion
  ∧ errKind? (ClienteSocket.enviarDatos
      { testClient with conectado := true, hasSocket := true } .sockTimeout)
      = some ExcKind.conexion
  ∧ errKind? (ClienteSocket.enviarDatos
      { testClient with conectado := true, hasSocket := true } .brokenPipe)
      = some ExcKind.conexion
  ∧ errKind? (ClienteSocket.enviarDatos testClient .ok) = some ExcKind.conexion := by
  refine ⟨rfl, rfl, rfl, rfl, rfl, rfl, rfl⟩

/-- C1, amended: every transport-layer failure of `conectar` and
`enviar_datos` is raised as the single exception class `ConexionError`;
the cause (resolution, timeout, refusal, lost pipe, not connected,
other) is distinguishable only through the message text, not through
the error's kind. -/
theorem C1_amended (c : ClienteSocket) (oc : ConnectOutcome) (os : SendOutcome) :
    errKindIs (ClienteSocket.conectar c oc).2 ExcKind.conexion = true
  ∧ errKindIs (ClienteSocket.enviarDatos c os) ExcKind.conexion = true := by
  constructor
  · cases hc : c.conectado <;> cases oc <;>
      simp [ClienteSocket.conectar, ClienteSocket.desconectar, hc, errKindIs, ClienteExc.kind]
  · unfold ClienteSocket.enviarDatos
    split
    · simp [errKindIs, ClienteExc.kind]
    · cases os <;> simp [errKindIs, ClienteExc.kind]

/-- C1, witness for the amended theorem. -/
theorem C1_amended_witness :
    errKindIs (ClienteSocket.conectar testClient .refused).2 ExcKind.conexion = true
  ∧ errKindIs (ClienteSocket.enviarDatos testClient .ok) ExcKind.conexion = true :=
  C1_amended testClient .refused .ok

/- ---------------------------------------------------------------------
Claim C2 — the last-resort pass for failed space-delimited parses.
--------------------------------------------------------------------- -/

/-- C2, counterexample: on the file `"a b\nc d"` the naive pass keeps
no data row (the data line has 2 tokens), which is exactly the claim's
trigger.  The claimed fixed-width pass fails on this input (the data
line `"c d"` has no run of 2+ spaces), so by the claim loading must
signal a content error; but the code never calls the fixed-width pass —
it falls back to `pd.read_csv(sep=r'\s+')` and returns its table
successfully. -/
theorem C2_counterexample :
    (procesarLineas 0 none [] lineasC2).2 = []
  ∧ procesarArchivoEspacios lineasC2 (.table dfC2) = .ok dfC2
  ∧ procesarColumnasFijas lineasC2 (fun _ => .failure "unreached")
      = .archivoErr "No se pudo determinar estructura de columnas" :=
  ⟨rfl, rfl, rfl⟩

/-- C2, amended: when the naive whitespace pass yields no header, an
empty header, or no usable rows, `_procesar_archivo_espacios` attempts
`pd.read_csv` with the whitespace-regex separator and returns its
outcome (wrapping any reader exception into the content error); the
fixed-width routine `_procesar_columnas_fijas` exists in the file but
is never invoked. -/
theorem C2_amended (lineas : List String) (wsCsv : ReadOutcome)
    (hne : lineas ≠ [])
    (hfail : (procesarLineas 0 none [] lineas).1 = none
           ∨ (procesarLineas 0 none [] lineas).1 = some []
           ∨ (procesarLineas 0 none [] lineas).2 = []) :
    procesarArchivoEspacios lineas wsCsv =
      match wsCsv with
      | .table df => .ok df
      | .emptyData m =>
        .error (.archivoError s!"Error al procesar archivo con espacios: {m}")
      | .parserError m =>
        .error (.archivoError s!"Error al procesar archivo con espacios: {m}")
      | .failure m =>
        .error (.archivoError s!"Error al procesar archivo con espacios: {m}") := by
  rcases hp : procesarLineas 0 none [] lineas with ⟨enc, datos⟩
  rw [hp] at hfail
  simp only [procesarArchivoEspacios, if_neg hne, hp]
  rcases enc with _ | e
  · cases wsCsv <;> rfl
  · rcases hfail with h1 | h2 | h3
    · exact absurd h1 (by simp)
    · have he : e = [] := by injection h2
      subst he
      simp only [ne_eq, not_true_eq_false, false_and, if_false]
      cases wsCsv <;> rfl
    · subst h3
      simp only [ne_eq, not_true_eq_false, and_false, if_false]
      cases wsCsv <;> rfl

/-- C2, witness for the amended theorem. -/
theorem C2_amended_witness :
    lineasC2 ≠ []
  ∧ procesarArchivoEspacios lineasC2 (.parserError "boom")
      = .error (.archivoError "Error al procesar archivo con espacios: boom") := by
  refine ⟨by decide, C2_amended lineasC2 (.parserError "boom") (by decide) (Or.inr (Or.inr rfl))⟩

/- ---------------------------------------------------------------------
Claim C3 — the spec's `expectedColumns=2` reconstruction example.
--------------------------------------------------------------------- -/

/-- Every row the naive pass keeps has exactly 4 fields: the column
count is hard-coded, not caller-supplied. -/
theorem naiveRow_length (partes r : List String) (h : naiveRow partes = some r) :
    r.length = 4 := by
  unfold naiveRow at h
  split_ifs at h with h4 he4 h3
  · cases h
    omega
  · cases h
    simp only [List.length_cons, List.length_drop]
    omega
  · cases h
    simp only [List.length_take, List.length_append, List.length_replicate]
    omega

/-- Loop invariant: every accumulated row of the naive pass has 4
fields. -/
theorem procesarLineas_rows_length (lineas : List String) :
    ∀ (i : Nat) (enc : Option (List String)) (datos : List (List String)),
      (∀ r ∈ datos, r.length = 4) →
      ∀ r ∈ (procesarLineas i enc datos lineas).2, r.length = 4 := by
  induction lineas with
  | nil => intro i enc datos h r hr; exact h r hr
  | cons l rest ih =>
    intro i enc datos h r hr
    unfold procesarLineas at hr
    by_cases hs : pyStrip l = ""
    · rw [if_pos hs] at hr
      exact ih _ _ _ h r hr
    · rw [if_neg hs] at hr
      by_cases hi : i = 0
      · rw [if_pos hi] at hr
        exact ih _ _ _ h r hr
      · rw [if_neg hi] at hr
        cases hnr : naiveRow (pySplit (pyStrip l)) with
        | none => rw [hnr] at hr; exact ih _ _ _ h r hr
        | some r0 =>
          rw [hnr] at hr
          refine ih _ _ _ ?_ r hr
          intro r' hr'
          rcases List.mem_append.mp hr' with h' | h'
          · exact h r' h'
          · rw [List.mem_singleton.mp h']
            exact naiveRow_length _ _ hnr

/-- C3, counterexample: on the spec's own example input the
reconstruction does not return the claimed two 2-field rows — it
raises an `ArchivoError`, because the 3-token line `"Ana Maria 30"` is
padded to the hard-coded width 4 while the header has 2 names, and
`pd.DataFrame` rejects the mismatch (the 2-token line `"Luis 41"` was
silently dropped). -/
theorem C3_counterexample :
    errKind? (procesarArchivoEspacios lineasC3 (.failure "unreached"))
      = some ExcKind.archivo := rfl

/-- C3, amended: there is no caller-supplied expected column count —
row width is hard-coded to 4 — so whenever the naive pass keeps a
header whose length is not 4 together with at least one data row, the
reconstruction fails with an `ArchivoError` instead of producing
rows. -/
theorem C3_amended (lineas : List String) (ws : ReadOutcome)
    (e : List String) (datos : List (List String))
    (hp : procesarLineas 0 none [] lineas = (some e, datos))
    (hene : e ≠ []) (hdne : datos ≠ []) (hlen : e.length ≠ 4) :
    errKind? (procesarArchivoEspacios lineas ws) = some ExcKind.archivo := by
  have hne : lineas ≠ [] := by
    intro h
    rw [h] at hp
    exact absurd (congrArg Prod.fst hp) (by simp [procesarLineas])
  have hall : ∀ r ∈ datos, r.length = 4 := by
    intro r hr
    have := procesarLineas_rows_length lineas 0 none [] (by simp)
    rw [hp] at this
    exact this r hr
  have hcond : ¬(datos.all (fun r => r.length = e.length) = true) := by
    intro hcontra
    rcases datos with _ | ⟨r0, rest⟩
    · exact absurd rfl hdne
    · have h0 := (List.all_eq_true.mp hcontra) r0 (by simp)
      rw [decide_eq_true_eq] at h0
      exact hlen (by rw [← hall r0 (by simp), h0])
  simp only [procesarArchivoEspacios, if_neg hne, hp]
  rw [if_pos ⟨hene, hdne⟩]
  unfold mkDataFrame
  rw [if_neg hcond]
  rfl

/-- C3, witness for the amended theorem, at the spec's example input. -/
theorem C3_amended_witness :
    procesarLineas 0 none [] lineasC3 = (some ["name", "age"], [["Ana", "Maria", "30", ""]])
  ∧ errKind? (procesarArchivoEspacios lineasC3 (.table dfC2)) = some ExcKind.archivo :=
  ⟨rfl, C3_amended lineasC3 (.table dfC2) ["name", "age"] [["Ana", "Maria", "30", ""]]
    rfl (by decide) (by decide) (by decide)⟩

/- ---------------------------------------------------------------------
Claim C4 — the 80% acceptance threshold of manual delimiter scoring.
--------------------------------------------------------------------- -/

/-- A fold that at each step keeps either the accumulator or the new
element ends on the accumulator or a list element. -/
theorem foldl_pick_mem {α : Type} (f : α → α → α)
    (hf : ∀ a b, f a b = a ∨ f a b = b) :
    ∀ (xs : List α) (a : α), xs.foldl f a ∈ a :: xs := by
  intro xs
  induction xs with
  | nil => intro a; simp
  | cons x xs ih =>
    intro a
    rw [List.foldl_cons]
    rcases List.mem_cons.mp (ih (f a x)) with h2 | h2
    · rcases hf a x with h | h <;> rw [h] at h2 ⊢ <;> simp [h2]
    · exact List.mem_cons_of_mem a (List.mem_cons_of_mem x h2)

/-- Python `max` returns an element of its argument. -/
theorem pyMaxBy_mem {α : Type} (key : α → Frac × Frac) (l : List α) (x : α)
    (h : pyMaxBy key l = some x) : x ∈ l := by
  rcases l with _ | ⟨y, ys⟩
  · simp [pyMaxBy] at h
  · have hx : x = ys.foldl (fun acc z => if tupleGt (key z) (key acc) then z else acc) y := by
      simpa [pyMaxBy] using h.symm
    rw [hx]
    exact foldl_pick_mem _ (fun a b => by by_cases hb : tupleGt (key b) (key a) <;> simp [hb]) ys y

/-- Every surviving candidate's consistency ratio is at least 0.8: the
ratio is `len(counts) / len(set(counts))`, and a set never outnumbers
the list it came from, so the ratio is at least 1. -/
theorem mejores_consistencia (ls : List String) (r : Resultado)
    (h : r ∈ mejoresResultados ls) : Frac.le ⟨4, 5⟩ r.consistencia = true := by
  rcases List.mem_filterMap.mp h with ⟨d, _, hf⟩
  simp only at hf
  by_cases h1 : columnasPorLinea d ls = []
  · rw [if_pos h1] at hf
    cases hf
  · rw [if_neg h1] at hf
    have hdedup : ¬(columnasPorLinea d ls).dedup = [] := by
      simpa [List.dedup_eq_nil] using h1
    rw [if_neg hdedup] at hf
    split at hf
    · cases hf
      have hdle : (columnasPorLinea d ls).dedup.length ≤ (columnasPorLinea d ls).length :=
        (List.dedup_sublist _).length_le
      have hpos : 1 ≤ (columnasPorLinea d ls).length := List.length_pos.mpr h1
      simp only [Frac.le, decide_eq_true_eq]
      omega
    · cases hf

/-- C4, counterexample: on a sample whose three lines have tab column
counts 2, 3 and 4, no single column count is shared by 80% of the
lines (the best agreement is 1/3), yet the manual scorer returns tab,
not the comma the claim requires. -/
theorem C4_counterexample :
    detectarManual muestraC4 = '\t'
  ∧ ('\t' : Char) ≠ ','
  ∧ Frac.eqv (maxAgreement (columnasPorLinea '\t' (lineasMuestra muestraC4))) ⟨1, 3⟩ = true
  ∧ Frac.lt ⟨1, 3⟩ ⟨4, 5⟩ = true := by
  refine ⟨by decide, by decide, by decide, by decide⟩

/-- C4, amended: the computed consistency ratio is
`len(lines) / len(distinct counts)`, which is at least 1 whenever any
line was sampled, so the `>= 0.8` acceptance test never rejects: the
manual scorer returns the lexicographic-max candidate whenever one
survives the mean-column filter, and returns comma exactly when none
does. -/
theorem C4_amended (muestra : String) :
    detectarManual muestra =
      match pyMaxBy (fun r => (r.consistencia, r.promedio))
          (mejoresResultados (lineasMuestra muestra)) with
      | none => ','
      | some r => r.delimitador := by
  unfold detectarManual
  by_cases hls : lineasMuestra muestra = []
  · rw [if_pos hls, hls]
    rfl
  · rw [if_neg hls]
    cases hm : pyMaxBy (fun r => (r.consistencia, r.promedio))
        (mejoresResultados (lineasMuestra muestra)) with
    | none => rfl
    | some r =>
      simp [mejores_consistencia _ _ (pyMaxBy_mem _ _ _ hm)]

/- ---------------------------------------------------------------------
Claim C6 — atomicity of `cargar_archivo` with respect to the state.
--------------------------------------------------------------------- -/

/-- C6: `cargar_archivo` writes `_archivo_actual` and `_datos` together
after all validation, so a failing call leaves the instance exactly as
it was and a succeeding call replaces both fields wholesale — callers
never observe a partial overwrite. -/
theorem C6_load_atomic (fs : FileSys) (m : ManejadorArchivos) (ruta : String) :
    (cargarArchivo fs m ruta).1 =
      match (cargarArchivo fs m ruta).2 with
      | .ok df => ⟨some ruta, some df⟩
      | .error _ => m := by
  unfold cargarArchivo
  cases cargarResult fs ruta <;> rfl

/- ---------------------------------------------------------------------
Claim C8 — numeric coercion after row assembly.
--------------------------------------------------------------------- -/

/-- C8, counterexample: with a non-numeric `anio` cell `"xx"`, the
claim says the original string is kept; the code's
`to_numeric(errors='coerce')` replaces it with NaN (`null`) instead. -/
theorem C8_counterexample :
    procesarArchivoEspacios lineasC8 (.failure "unreached")
      = .ok ⟨["pais", "codigo", "anio", "perdida_ha"],
             [[.str "Brasil", .str "BR", .null, .num 100 1]]⟩
  ∧ toNumericCoerce (.str "xx") = .null
  ∧ Value.null ≠ Value.str "xx" :=
  ⟨rfl, rfl, by decide⟩

/-- Boolean-flag zipping agrees with name testing on the zip itself. -/
theorem map_if_zip (name : String) (g : Value → Value) :
    ∀ (cols : List String) (r : List Value),
      ((cols.map (· == name)).zip r).map (fun p => if p.1 then g p.2 else p.2)
        = (cols.zip r).map (fun p => if p.1 = name then g p.2 else p.2) := by
  intro cols
  induction cols with
  | nil => intro r; rfl
  | cons c cs ih =>
    intro r
    cases r with
    | nil => rfl
    | cons v vs =>
      by_cases hc : c = name <;> simp [hc, ih]

/-- Characterization of one column coercion on a rectangular frame. -/
theorem coerceCol_spec (name : String) (df : DataFrame) (hrect : df.rect = true) :
    (coerceCol name df).columns = df.columns
  ∧ (coerceCol name df).rows = df.rows.map (fun r =>
      (df.columns.zip r).map (fun p =>
        if p.1 = name then toNumericCoerce p.2 else p.2)) := by
  unfold coerceCol
  by_cases hc : df.columns.contains name
  · rw [if_pos hc]
    refine ⟨rfl, ?_⟩
    simp only
    exact List.map_congr_left (fun r _ => map_if_zip name toNumericCoerce df.columns r)
  · rw [if_neg hc]
    refine ⟨rfl, ?_⟩
    have hni : ∀ c ∈ df.columns, c ≠ name := by
      intro c hcm hceq
      exact hc (List.elem_eq_true_of_mem (hceq ▸ hcm))
    have hF : ∀ r ∈ df.rows,
        (df.columns.zip r).map (fun p => if p.1 = name then toNumericCoerce p.2 else p.2)
          = id r := by
      intro r hr
      have hlen : r.length = df.columns.length := by
        have := List.all_eq_true.mp hrect r hr
        simpa using this
      have hpt : ∀ p ∈ df.columns.zip r,
          (if p.1 = name then toNumericCoerce p.2 else p.2) = p.2 := by
        intro p hp
        rw [if_neg (hni p.1 (List.of_mem_zip hp).1)]
      calc (df.columns.zip r).map (fun p => if p.1 = name then toNumericCoerce p.2 else p.2)
          = (df.columns.zip r).map Prod.snd := List.map_congr_left hpt
        _ = r := List.map_snd_zip _ _ (le_of_eq hlen)
        _ = id r := rfl
    exact ((List.map_congr_left hF).trans (List.map_id df.rows)).symm

/-- Coercion keeps the frame rectangular. -/
theorem coerceCol_rect (name : String) (df : DataFrame) (hrect : df.rect = true) :
    (coerceCol name df).rect = true := by
  obtain ⟨hcols, hrows⟩ := coerceCol_spec name df hrect
  unfold DataFrame.rect at hrect ⊢
  rw [hcols, hrows, List.all_eq_true]
  intro r hr
  rcases List.mem_map.mp hr with ⟨r0, hr0, hr0eq⟩
  have hlen : r0.length = df.columns.length := by
    have := List.all_eq_true.mp hrect r0 hr0
    simpa using this
  subst hr0eq
  simp [List.length_zip, hlen]

/-- Two successive single-column coercions with different names act as
one pass testing both names. -/
theorem coerce_two (n1 n2 : String) (hne : n1 ≠ n2) :
    ∀ (cols : List String) (r : List Value),
      (cols.zip ((cols.zip r).map
          (fun p => if p.1 = n1 then toNumericCoerce p.2 else p.2))).map
        (fun p => if p.1 = n2 then toNumericCoerce p.2 else p.2)
      = (cols.zip r).map
          (fun p => if p.1 = n1 ∨ p.1 = n2 then toNumericCoerce p.2 else p.2) := by
  intro cols
  induction cols with
  | nil => intro r; rfl
  | cons c cs ih =>
    intro r
    cases r with
    | nil => rfl
    | cons v vs =>
      by_cases h1 : c = n1
      · have h2 : ¬c = n2 := fun h => hne (h1 ▸ h)
        simp [h1, h2, ih, hne, Ne.symm hne]
      · by_cases h2 : c = n2 <;> simp [h1, h2, ih, Ne.symm hne]

/-- `coerceCol` never changes the header. -/
theorem coerceCol_columns (name : String) (df : DataFrame) :
    (coerceCol name df).columns = df.columns := by
  unfold coerceCol
  split <;> rfl

/-- With a unique (or absent) label the coercion statement succeeds and
is exactly the cell-wise `coerceCol`. -/
theorem coerceColStrict_ok (name : String) (df : DataFrame)
    (h : df.columns.count name ≤ 1) :
    coerceColStrict name df = .ok (coerceCol name df) := by
  unfold coerceColStrict
  by_cases hc : df.columns.contains name
  · rw [if_pos hc, if_neg (by omega)]
  · rw [if_neg hc]
    unfold coerceCol
    rw [if_neg hc]

/-- With a duplicated label `df[name]` selects a DataFrame, so
`pd.to_numeric` raises before any assignment. -/
theorem coerceColStrict_dup (name : String) (df : DataFrame)
    (h : 1 < df.columns.count name) :
    coerceColStrict name df
      = .error "arg must be a list, tuple, 1-d array, or Series" := by
  unfold coerceColStrict
  have hmem : name ∈ df.columns := by
    by_contra hmem
    rw [List.count_eq_zero.mpr hmem] at h
    omega
  rw [if_pos (List.elem_eq_true_of_mem hmem), if_pos h]

/-- C8, amended: the two coercion statements run inside one
`try/except: pass`.  With unique `anio` and `perdida_ha` labels (the
assembled 4-token headers of this loader) the coercion is cell-wise
with `errors='coerce'`: a cell that parses under pandas' numeric
grammar becomes numeric (possibly `±inf` or NaN), a cell that fails
becomes NaN (`null`) — it is *not* left as the original string — no
row is dropped and every other cell is unchanged.  When a target label
is duplicated, `pd.to_numeric` raises inside the `try` and the
remaining coercions are skipped, leaving those columns as strings. -/
theorem C8_amended (df : DataFrame) (hrect : df.rect = true) :
    (coerceTipos df).columns = df.columns
  ∧ (coerceTipos df).rows.length = df.rows.length
  ∧ (df.columns.count "anio" ≤ 1 → df.columns.count "perdida_ha" ≤ 1 →
      (coerceTipos df).rows = df.rows.map (fun r =>
        (df.columns.zip r).map (fun p =>
          if p.1 = "anio" ∨ p.1 = "perdida_ha" then toNumericCoerce p.2 else p.2)))
  ∧ (1 < df.columns.count "anio" → coerceTipos df = df)
  ∧ (df.columns.count "anio" ≤ 1 → 1 < df.columns.count "perdida_ha" →
      coerceTipos df = coerceCol "anio" df) := by
  by_cases ha : df.columns.count "anio" ≤ 1
  · by_cases hp : df.columns.count "perdida_ha" ≤ 1
    · have hct : coerceTipos df = coerceCol "perdida_ha" (coerceCol "anio" df) := by
        unfold coerceTipos
        rw [coerceColStrict_ok "anio" df ha]
        show (match coerceColStrict "perdida_ha" (coerceCol "anio" df) with
              | .error _ => coerceCol "anio" df
              | .ok df2 => df2) = coerceCol "perdida_ha" (coerceCol "anio" df)
        rw [coerceColStrict_ok "perdida_ha" (coerceCol "anio" df)
          (by rw [coerceCol_columns]; exact hp)]
      obtain ⟨hc1, hr1⟩ := coerceCol_spec "anio" df hrect
      obtain ⟨hc2, hr2⟩ :=
        coerceCol_spec "perdida_ha" (coerceCol "anio" df) (coerceCol_rect "anio" df hrect)
      have hrows : (coerceTipos df).rows = df.rows.map (fun r =>
          (df.columns.zip r).map (fun p =>
            if p.1 = "anio" ∨ p.1 = "perdida_ha" then toNumericCoerce p.2 else p.2)) := by
        rw [hct, hr2, hc1, hr1, List.map_map]
        exact List.map_congr_left (fun r _ =>
          coerce_two "anio" "perdida_ha" (by decide) df.columns r)
      refine ⟨by rw [hct, hc2, hc1], by rw [hrows, List.length_map],
        fun _ _ => hrows, fun hcontra => absurd hcontra (by omega),
        fun _ hcontra => absurd hcontra (by omega)⟩
    · have hp2 : 1 < df.columns.count "perdida_ha" := by omega
      have hct : coerceTipos df = coerceCol "anio" df := by
        unfold coerceTipos
        rw [coerceColStrict_ok "anio" df ha]
        show (match coerceColStrict "perdida_ha" (coerceCol "anio" df) with
              | .error _ => coerceCol "anio" df
              | .ok df2 => df2) = coerceCol "anio" df
        rw [coerceColStrict_dup "perdida_ha" (coerceCol "anio" df)
          (by rw [coerceCol_columns]; exact hp2)]
      obtain ⟨hc1, hr1⟩ := coerceCol_spec "anio" df hrect
      exact ⟨by rw [hct, hc1], by rw [hct, hr1, List.length_map],
        fun _ hcontra => absurd hcontra (by omega),
        fun hcontra => absurd hcontra (by omega), fun _ _ => hct⟩
  · have ha2 : 1 < df.columns.count "anio" := by omega
    have hct : coerceTipos df = df := by
      unfold coerceTipos
      rw [coerceColStrict_dup "anio" df ha2]
    exact ⟨by rw [hct], by rw [hct], fun hcontra _ => absurd hcontra (by omega),
      fun _ => hct, fun hcontra _ => absurd hcontra (by omega)⟩

/-- C8, witness for the amended theorem: the assembled frame of
`lineasC8` before coercion (uniquely labelled header, so the cell-wise
branch applies). -/
theorem C8_amended_witness :
    (DataFrame.rect ⟨["pais", "codigo", "anio", "perdida_ha"],
        [[.str "Brasil", .str "BR", .str "xx", .str "100"]]⟩) = true
  ∧ (["pais", "codigo", "anio", "perdida_ha"].count "anio" ≤ 1)
  ∧ (["pais", "codigo", "anio", "perdida_ha"].count "perdida_ha" ≤ 1)
  ∧ (coerceTipos ⟨["pais", "codigo", "anio", "perdida_ha"],
        [[.str "Brasil", .str "BR", .str "xx", .str "100"]]⟩).rows
      = [[.str "Brasil", .str "BR", .null, .num 100 1]] := by
  refine ⟨by decide, by decide, by decide, ?_⟩
  rw [(C8_amended ⟨["pais", "codigo", "anio", "perdida_ha"],
        [[.str "Brasil", .str "BR", .str "xx", .str "100"]]⟩
      (by decide)).2.2.1 (by decide) (by decide)]
  rfl

/- ---------------------------------------------------------------------
Claim C5 — the failure condition and error kind of `cargar_archivo`.
--------------------------------------------------------------------- -/

/-- C5: `cargar_archivo` fails exactly under the spec's conditions —
missing path, unsupported extension, failing reader (structural parse
error, failing space reconstruction, or any other wrapped exception),
or an empty parsed table (`condContentError`) — every failure carries
the single content-error kind `ArchivoError`, and a success returns a
non-empty table. -/
theorem C5_cargar_errores (fs : FileSys) (ruta : String) :
    errKindIs (cargarResult fs ruta) ExcKind.archivo = true
  ∧ exceptOk (cargarResult fs ruta) = !condContentError fs ruta
  ∧ okNonEmpty (cargarResult fs ruta) = true := by
  unfold cargarResult cargarInner condContentError
  cases hfs : fs ruta with
  | none => exact ⟨rfl, rfl, rfl⟩
  | some f =>
    by_cases hext : EXTENSIONES_PERMITIDAS.contains (strToLower (pathSuffix ruta)) = true
    · simp only [hext, if_true]
      cases hld : leerDatos f (strToLower (pathSuffix ruta)) with
      | error e =>
        cases e <;> exact ⟨rfl, rfl, rfl⟩
      | ok df =>
        by_cases hemp : df.isEmpty = true
        · simp only [hemp, if_true]
          exact ⟨rfl, by simp [exceptOk, hemp], rfl⟩
        · simp only [Bool.not_eq_true] at hemp
          simp only [hemp, Bool.false_eq_true, if_false]
          exact ⟨rfl, by simp [exceptOk, hemp], by simp [okNonEmpty, hemp]⟩
    · simp only [Bool.not_eq_true] at hext
      simp only [hext, Bool.false_eq_true, if_false]
      exact ⟨rfl, rfl, rfl⟩

/- ---------------------------------------------------------------------
Claim C7 — the JSON round trip.
--------------------------------------------------------------------- -/

/-- A successful `cargar_archivo` returns a non-empty table (the
`datos.empty` validation). -/
theorem cargarResult_ok_nonempty (fs : FileSys) (ruta : String) (df : DataFrame)
    (h : cargarResult fs ruta = .ok df) : df.isEmpty = false := by
  unfold cargarResult cargarInner at h
  cases hfs : fs ruta with
  | none => rw [hfs] at h; cases h
  | some f =>
    rw [hfs] at h
    by_cases hext : EXTENSIONES_PERMITIDAS.contains (strToLower (pathSuffix ruta)) = true
    · simp only [hext, if_true] at h
      cases hld : leerDatos f (strToLower (pathSuffix ruta)) with
      | error e => rw [hld] at h; cases e <;> cases h
      | ok datos =>
        rw [hld] at h
        by_cases hemp : datos.isEmpty = true
        · simp only [hemp, if_true] at h
          cases h
        · simp only [Bool.not_eq_true] at hemp
          simp only [hemp, Bool.false_eq_true, if_false] at h
          cases h
          exact hemp
    · simp only [Bool.not_eq_true] at hext
      simp only [hext, Bool.false_eq_true, if_false] at h
      cases h

/-- C9: in every reachable handler state the current-file path is set
exactly when a non-empty table is held; consequently the metadata
record is non-empty exactly when a file has been loaded, and then it
reports at least one data row. -/
theorem C9_invariante (m : ManejadorArchivos) (h : Reachable m) :
    m.archivoActual.isSome = tieneDatos m
  ∧ (∀ size : Nat, (obtenerInformacion m size).isSome = m.archivoActual.isSome)
  ∧ (∀ (size : Nat) (info : InfoArchivo),
      obtenerInformacion m size = some info → 1 ≤ info.filas) := by
  induction h with
  | init =>
    refine ⟨rfl, fun _ => rfl, fun size info hinfo => ?_⟩
    cases hinfo
  | load fs ruta hm ih =>
    rename_i m0
    cases hr : cargarResult fs ruta with
    | error e =>
      have hstate : (cargarArchivo fs m0 ruta).1 = m0 := by
        unfold cargarArchivo
        rw [hr]
      rw [hstate]
      exact ih
    | ok df =>
      have hstate : (cargarArchivo fs m0 ruta).1 = ⟨some ruta, some df⟩ := by
        unfold cargarArchivo
        rw [hr]
      rw [hstate]
      have hne : df.isEmpty = false := cargarResult_ok_nonempty fs ruta df hr
      have hrows : df.rows ≠ [] := by
        intro hcontra
        rw [DataFrame.isEmpty, hcontra] at hne
        simp at hne
      have htd : tieneDatos ⟨some ruta, some df⟩ = true := by
        simp [tieneDatos, hne]
      refine ⟨by simp [htd], fun _ => rfl, fun size info hinfo => ?_⟩
      simp only [obtenerInformacion, Option.some.injEq] at hinfo
      rw [← hinfo]
      simp only [htd, if_true, Option.map_some, Option.getD_some]
      exact List.length_pos.mpr hrows

/-- C9, witness at a loaded reachable state. -/
theorem C9_witness :
    (cargarArchivo testFs inicial "d.csv").1.archivoActual.isSome
      = tieneDatos (cargarArchivo testFs inicial "d.csv").1 :=
  (C9_invariante _ (Reachable.load testFs "d.csv" Reachable.init)).1

/- ---------------------------------------------------------------------
Claim C10 — short data lines of the naive pass.
--------------------------------------------------------------------- -/

/-- After the header line, the naive loop is a `filterMap` of
`naiveRow` over the stripped non-blank data lines. -/
theorem procesarLineas_tail (rest : List String) :
    ∀ (i : Nat) (enc : Option (List String)) (datos : List (List String)),
      i ≠ 0 →
      procesarLineas i enc datos rest
        = (enc, datos ++ rest.filterMap (fun l =>
            if pyStrip l = "" then none else naiveRow (pySplit (pyStrip l)))) := by
  induction rest with
  | nil => intro i enc datos _; simp [procesarLineas]
  | cons l rest ih =>
    intro i enc datos hi
    unfold procesarLineas
    by_cases hs : pyStrip l = ""
    · rw [if_pos hs, ih (i + 1) enc datos (by omega)]
      simp [hs]
    · rw [if_neg hs, if_neg hi]
      cases hnr : naiveRow (pySplit (pyStrip l)) with
      | none =>
        show procesarLineas (i + 1) enc datos rest = _
        rw [ih (i + 1) enc datos (by omega)]
        simp [hs, hnr]
      | some r =>
        show procesarLineas (i + 1) enc (datos ++ [r]) rest = _
        rw [ih (i + 1) enc (datos ++ [r]) (by omega)]
        simp [hs, hnr]

/-- C10: with a non-blank first line as header, the assembled rows are
exactly `naiveRow` filter-mapped over the remaining non-blank lines;
`naiveRow` drops every line of fewer than 3 tokens silently (no row,
no error) and pads a 3-token line with exactly one empty trailing
field. -/
theorem C10_lineas_cortas (l0 : String) (rest : List String)
    (h0 : pyStrip l0 ≠ "") :
    procesarLineas 0 none [] (l0 :: rest)
      = (some (pySplit (pyStrip l0)),
         rest.filterMap (fun l =>
           if pyStrip l = "" then none else naiveRow (pySplit (pyStrip l))))
  ∧ (∀ partes : List String, partes.length < 3 → naiveRow partes = none)
  ∧ (∀ partes : List String, partes.length = 3 →
      naiveRow partes = some (partes ++ [""])) := by
  refine ⟨?_, ?_, ?_⟩
  · show (if pyStrip l0 = "" then procesarLineas 1 none [] rest
          else if 0 = 0 then procesarLineas 1 (some (pySplit (pyStrip l0))) [] rest
          else _) = _
    rw [if_neg h0, if_pos rfl, procesarLineas_tail rest 1 _ _ (by omega)]
    simp
  · intro partes hlen
    unfold naiveRow
    rw [if_neg (by omega), if_neg (by omega)]
  · intro partes hlen
    unfold naiveRow
    rw [if_neg (by omega), if_pos (by omega)]
    congr 1
    rw [hlen]
    have h4 : (partes ++ List.replicate (4 - 3) "").length = 4 := by
      simp [hlen]
    rw [show List.replicate (4 - 3) "" = [""] from rfl] at h4 ⊢
    exact List.take_of_length_le (by omega)

/-- C10, witness. -/
theorem C10_witness :
    procesarLineas 0 none [] ["h1 h2 h3 h4", "a b", "x y z"]
      = (some ["h1", "h2", "h3", "h4"], [["x", "y", "z", ""]])
  ∧ naiveRow ["a", "b"] = none
  ∧ naiveRow ["x", "y", "z"] = some ["x", "y", "z", ""] := by
  obtain ⟨h1, h2, h3⟩ :=
    C10_lineas_cortas "h1 h2 h3 h4" ["a b", "x y z"] (by decide)
  exact ⟨by rw [h1]; rfl, h2 ["a", "b"] (by decide), h3 ["x", "y", "z"] (by decide)⟩

end ClienteSocketPython
